import Mathlib

/-!
Shallow embedding of the data-quality validation engine of the Coventry DW
pipeline (src/src/data_quality/validator.py), together with proofs of the
spec claims about it.

A pandas DataFrame is modelled as a row count plus a list of named columns,
each column a list of cell values of uniform length.  Cell values are null,
a number, a string (never parseable as a date in this model), or a date
(a timestamp counted in hours).  Scores are rationals, so that every
arithmetic fact of the code is exact and decidable.

Python exceptions that can escape a function are modelled with
`Except String`; exceptions that the source catches locally are resolved
inside the corresponding definition, mirroring the placement of the
`try/except` blocks in the source.
-/

namespace CoventryDW

/-- A cell value of a dataset column. -/
inductive Value where
  | vnull
  | vnum (q : ℚ)
  | vstr (s : String)
  | vdate (d : ℤ)
  deriving DecidableEq, Repr

/-- A named column of a dataset. -/
structure Column where
  name : String
  values : List Value
  deriving DecidableEq, Repr

/-- A dataset: a row count and columns, each of that length
(`len(df)` in pandas is the row count, well defined even with no columns). -/
structure DataFrame where
  nrows : ℕ
  columns : List Column
  wf : ∀ c ∈ columns, c.values.length = nrows

/-- Column lookup, `column in df.columns` / `df[column]`: the first column
with that name. -/
def getCol (df : DataFrame) (name : String) : Option (List Value) :=
  (df.columns.find? (fun c => c.name == name)).map (fun c => c.values)

/-- The business (non-metadata) columns: every column whose name does not
start with an underscore. -/
def businessCols (df : DataFrame) : List Column :=
  df.columns.filter (fun c => !(c.name.startsWith "_"))

/-- Count of non-null cells, `df[column].notna().sum()`. -/
def notNullCount (vs : List Value) : ℕ :=
  vs.countP (fun x => !(x == Value.vnull))

/-- A `CheckResult` as produced by the individual checkers:
`{passed, score, error?}` (structured details are kept separately
where a claim needs them). -/
structure CheckResult where
  passed : Bool
  score : ℚ
  error : Option String := none
  deriving DecidableEq, Repr

/-- A business rule as read from configuration: a Python dict whose keys
may each be absent (`rule["k"]` on an absent key raises `KeyError`). -/
structure RuleDict where
  name : Option String := none
  column : Option String := none
  check : Option String := none
  value : Option ℚ := none
  min_date : Option ℤ := none
  max_date : Option ℤ := none
  deriving DecidableEq, Repr

/-- One entry of `rule_results` in `_validate_business_rules`. -/
structure RuleResult where
  rule : String
  passed : Bool
  score : Option ℚ := none
  error : Option String := none
  deriving DecidableEq, Repr

/-- The result of `_validate_business_rules`: the `CheckResult` fields
plus the per-rule results. -/
structure BusinessResult where
  passed : Bool
  score : ℚ
  rule_results : List RuleResult
  deriving DecidableEq, Repr

/-- Coercing datetime parse of one cell (`pd.to_datetime` with coercion):
dates survive, everything else (numbers, strings, nulls) becomes `NaT`. -/
def toDatetimeCoerce (x : Value) : Option ℤ :=
  match x with
  | .vdate d => some d
  | _ => none

/-- Whether a column of cells gets a numeric pandas dtype: true iff every
cell is numeric or null (nulls become `NaN`). -/
def numericDtype (vs : List Value) : Bool :=
  vs.all (fun x => match x with
    | .vnum _ => true
    | .vnull => true
    | _ => false)

/-- The elementwise predicate of `df[column] > value` on a numeric-dtype
column: a numeric cell compares numerically, a null cell is `NaN` and
compares `False`. -/
def gtPredicate (v : ℚ) (x : Value) : Bool :=
  match x with
  | .vnum q => decide (q > v)
  | _ => false

/-- `df[column] > value` followed by `.sum()`.  A column whose cells are all
numeric-or-null has a numeric dtype and the comparison counts cells above
`value`; a column holding any non-null non-numeric cell has object dtype
and the elementwise comparison raises `TypeError`. -/
def gtCount (vs : List Value) (v : ℚ) : Except String ℕ :=
  if numericDtype vs then .ok (vs.countP (gtPredicate v))
  else .error "TypeError"

/-- Count of cells inside `[min_date, max_date]` after a coercing parse:
`NaT` compares false on both bounds. -/
def dateRangeCount (vs : List Value) (lo hi : ℤ) : ℕ :=
  vs.countP (fun x => match toDatetimeCoerce x with
    | some d => decide (lo ≤ d ∧ d ≤ hi)
    | none => false)

/-- The score computation inside the `try` block of
`_validate_business_rules` for one rule whose column exists: an `.error`
is an exception reaching the `except` handler of the loop (a missing
`value`/`min_date`/`max_date` key, or `TypeError` from a mixed-type
comparison).  An unrecognised check kind silently scores `0.0`. -/
def tryScore (ck : String) (r : RuleDict) (vs : List Value)
    (total : ℕ) : Except String ℚ :=
  if ck = "not_null" then
    .ok (if total > 0 then (notNullCount vs : ℚ) / total else 0)
  else if ck = "greater_than" then
    match r.value with
    | none => .error "KeyError: value"
    | some v =>
      match gtCount vs v with
      | .error e => .error e
      | .ok pr => .ok (if total > 0 then (pr : ℚ) / total else 0)
  else if ck = "date_range" then
    match r.min_date, r.max_date with
    | some lo, some hi =>
      .ok (if total > 0 then (dateRangeCount vs lo hi : ℚ) / total else 0)
    | _, _ => .error "KeyError: date bound"
  else
    .ok 0

/-- The `try` block of `_validate_business_rules` together with its
`except` handler: a successful score is recorded with the fixed 95%
per-rule pass threshold and added to `total_score`; a caught exception is
recorded as a failing rule result contributing `0.0`.  Returns the
appended `rule_result` and the amount added to `total_score`. -/
def tryEvalRule (nm ck : String) (r : RuleDict) (vs : List Value)
    (total : ℕ) : RuleResult × ℚ :=
  match tryScore ck r vs total with
  | .ok s =>
    ({ rule := nm, passed := decide (s ≥ (95 : ℚ)/100), score := some s }, s)
  | .error e =>
    ({ rule := nm, passed := false, error := some e }, 0)

/-- One iteration of the rule loop of `_validate_business_rules`.
`rule["name"]`, `rule["column"]` and `rule["check"]` are read OUTSIDE the
`try` block, so a rule dict missing one of these keys raises `KeyError`
past the checker (modelled as `.error`).  A rule naming a column absent
from the dataset yields a failing rule result and `continue`. -/
def evalRule (df : DataFrame) (r : RuleDict) : Except String (RuleResult × ℚ) :=
  match r.name with
  | none => .error "KeyError: name"
  | some nm =>
    match r.column with
    | none => .error "KeyError: column"
    | some col =>
      match r.check with
      | none => .error "KeyError: check"
      | some ck =>
        match getCol df col with
        | none =>
          .ok ({ rule := nm, passed := false,
                 error := some ("Column " ++ col ++ " not found") }, 0)
        | some vs => .ok (tryEvalRule nm ck r vs df.nrows)

/-- The rule loop: accumulates `rule_results` and `total_score`; the first
uncaught exception aborts the loop (and the whole validation). -/
def brLoop (df : DataFrame) : List RuleDict → Except String (List RuleResult × ℚ)
  | [] => .ok ([], 0)
  | r :: rest =>
    match evalRule df r with
    | .error e => .error e
    | .ok (rr, s) =>
      match brLoop df rest with
      | .error e => .error e
      | .ok (rs, ts) => .ok (rr :: rs, s + ts)

/-- The business-rule engine `_validate_business_rules`: overall score is `total_score / len(rules)`
(`1.0` when no rules are configured); `passed` is `score >= 0.95`. -/
def validate_business_rules (df : DataFrame) (rules : List RuleDict) :
    Except String BusinessResult :=
  match brLoop df rules with
  | .error e => .error e
  | .ok (rs, total) =>
    let overall : ℚ := if rules.isEmpty then 1 else total / rules.length
    .ok { passed := decide (overall ≥ (95 : ℚ)/100), score := overall,
          rule_results := rs }

/-- The completeness ratio of one column: non-null count over row count
(zero rows give ratio 0). -/
def completenessRatio (total : ℕ) (vs : List Value) : ℚ :=
  if total > 0 then (notNullCount vs : ℚ) / total else 0

/-- The completeness checker `_validate_completeness`: mean non-null ratio over business columns
(`1.0` when there are none); `passed` is `score >= 0.9`. -/
def validate_completeness (df : DataFrame) : CheckResult :=
  let bcols := businessCols df
  let ratios := bcols.map (fun c => completenessRatio df.nrows c.values)
  let overall : ℚ := if bcols.isEmpty then 1 else ratios.sum / bcols.length
  { passed := decide (overall ≥ (9 : ℚ)/10), score := overall }

/-- The concrete runtime kind of a non-null cell (`type(x)` in Python,
at the granularity of this model). -/
inductive Kind where
  | knum
  | kstr
  | kdate
  deriving DecidableEq, Repr

/-- The kind of one cell as seen by `dropna().apply(type)`: `none` for a
null cell, otherwise the concrete kind. -/
def valueKind (x : Value) : Option Kind :=
  match x with
  | .vnull => none
  | .vnum _ => some .knum
  | .vstr _ => some .kstr
  | .vdate _ => some .kdate

/-- The distinct runtime kinds among the non-null cells
(`.unique()` on the kinds). -/
def nonNullKinds (vs : List Value) : List Kind :=
  (vs.filterMap valueKind).dedup

/-- pandas dtype inference: a column is object-dtyped when it holds a
string, or non-null cells of more than one kind; all-numeric(-or-null)
columns are numeric, all-date columns are datetime64. -/
def isObjectDtype (vs : List Value) : Bool :=
  (vs.filterMap valueKind).any (fun k => k == Kind.kstr) ||
    (nonNullKinds vs).length > 1

/-- The projection of row `i` onto the business columns, used by
`df.duplicated(subset=business_columns)`. -/
def rowTuple (bcols : List Column) (i : ℕ) : List Value :=
  bcols.map (fun c => c.values.getD i Value.vnull)

/-- Number of duplicated rows, `duplicated(subset=business_columns)`: a
row is a duplicate when an earlier row agrees with it on every business
column. -/
def duplicateCount (df : DataFrame) : ℕ :=
  let b := businessCols df
  (List.range df.nrows).countP (fun i =>
    (List.range i).any (fun j => rowTuple b j == rowTuple b i))

/-- The type-consistency sub-check: every object-dtyped business column
must have at most one runtime kind among its non-null cells. -/
def typeConsistent (df : DataFrame) : Bool :=
  (businessCols df).all (fun c =>
    !(isObjectDtype c.values) || (nonNullKinds c.values).length ≤ 1)

/-- The consistency checker `_validate_consistency`: two sub-checks (duplicates below 1%, type
consistency), score = passing sub-checks / 2, `passed` is `score >= 0.9`. -/
def validate_consistency (df : DataFrame) : CheckResult :=
  let dupRate : ℚ :=
    if df.nrows > 0 then (duplicateCount df : ℚ) / df.nrows else 0
  let dupPassed := decide (dupRate < (1 : ℚ)/100)
  let typePassed := typeConsistent df
  let passedChecks : ℕ :=
    (if dupPassed then 1 else 0) + (if typePassed then 1 else 0)
  let score : ℚ := (passedChecks : ℚ) / 2
  { passed := decide (score ≥ (9 : ℚ)/10), score := score }

/-- Strict datetime parse of one cell (`pd.to_datetime` without coercion):
nulls become `NaT`, dates survive, anything unparseable raises. -/
def toDatetimeStrict (x : Value) : Except String (Option ℤ) :=
  match x with
  | .vnull => .ok none
  | .vdate d => .ok (some d)
  | _ => .error "date parse error"

/-- Strict datetime parse of a whole column: the first unparseable cell
raises. -/
def strictParseAll : List Value → Except String (List (Option ℤ))
  | [] => .ok []
  | x :: xs =>
    match toDatetimeStrict x with
    | .error e => .error e
    | .ok d =>
      match strictParseAll xs with
      | .error e => .error e
      | .ok ds => .ok (d :: ds)

/-- Maximum of a datetime series (`.max()`): `NaT` entries are skipped; all-`NaT`
(or empty) yields `NaT` (`none`). -/
def listMaxO (l : List (Option ℤ)) : Option ℤ :=
  l.foldl (fun acc x =>
    match acc, x with
    | none, y => y
    | some a, none => some a
    | some a, some b => some (max a b)) none

/-- Whether a column name mentions a date, case-insensitively. -/
def nameMentionsDate (s : String) : Bool :=
  (s.toLower.splitOn "date").length > 1

/-- The ingestion-freshness sub-check (only when `_ingestion_timestamp`
exists).  The strict parse is NOT inside a `try`, so an unparseable cell
raises past the checker.  `now` is `datetime.utcnow()` in hours; the
check passes when the latest ingestion is less than 24 hours old; an
all-`NaT` column gives `NaN < 24`, i.e. `False`. -/
def ingestionCheck (now : ℤ) (df : DataFrame) : Except String (Option Bool) :=
  match getCol df "_ingestion_timestamp" with
  | none => .ok none
  | some vs =>
    match strictParseAll vs with
    | .error e => .error e
    | .ok parsed =>
      match listMaxO parsed with
      | some t => .ok (some (decide (now - t < 24)))
      | none => .ok (some false)

/-- One business-date-column freshness sub-check, wrapped in the source's
`try/except Exception: continue`: a parse failure skips the column
(`none`); otherwise the check passes when the latest date is less than
7 days old (`timedelta.days` floors, hence `Int.fdiv` by 24). -/
def dateColCheck (now : ℤ) (vs : List Value) : Option Bool :=
  match strictParseAll vs with
  | .error _ => none
  | .ok parsed =>
    match listMaxO parsed with
    | some t => some (decide (Int.fdiv (now - t) 24 < 7))
    | none => some false

/-- The business-date columns: name mentions `date` (case-insensitively)
and is not a metadata column. -/
def dateColumns (df : DataFrame) : List Column :=
  df.columns.filter (fun c =>
    nameMentionsDate c.name && !(c.name.startsWith "_"))

/-- The freshness checker `_validate_freshness`: the applicable sub-checks are the ingestion
check (if any) and one check per parseable business-date column; with no
sub-checks the score defaults to `1.0`, otherwise it is the fraction of
passing sub-checks and `passed` is `score >= 0.8`. -/
def validate_freshness (now : ℤ) (df : DataFrame) : Except String CheckResult :=
  match ingestionCheck now df with
  | .error e => .error e
  | .ok ing =>
    let dchecks := (dateColumns df).filterMap (fun c => dateColCheck now c.values)
    let checks := (match ing with | some b => [b] | none => []) ++ dchecks
    if checks.isEmpty then
      .ok { passed := true, score := 1 }
    else
      let score : ℚ := (checks.countP (fun b => b) : ℚ) / checks.length
      .ok { passed := decide (score ≥ (4 : ℚ)/5), score := score }

/-- The schema checker `_validate_schema`: delegates to the schema-manager collaborator
(modelled by its outcome: a verdict, or a raised exception).  Score is
binary; a collaborator exception is caught and becomes a failing result
with the error message. -/
def validate_schema (schemaOutcome : Except String Bool) : CheckResult :=
  match schemaOutcome with
  | .ok b => { passed := b, score := if b then 1 else 0 }
  | .error e => { passed := false, score := 0, error := some e }

/-- The data-quality section of the configuration: both entries are read
with `.get(key, default)`, so each may be absent. -/
structure QualityConfig where
  coverage_threshold : Option ℚ := none
  rules : Option (List RuleDict) := none

/-- The aggregate `validation_results` document (timestamps and nested
details aside). -/
structure ValidationResult where
  total_rows : ℕ
  schema_validation : CheckResult
  business_rules : BusinessResult
  completeness : CheckResult
  consistency : CheckResult
  freshness : CheckResult
  overall_score : ℚ
  passed : Bool
  quarantined_rows : ℕ
  deriving DecidableEq, Repr

/-- The quarantine step `_quarantine_bad_data`: the quarantine mask starts all-`False` and is
set to all-`True` exactly when the schema check failed; business-rule
failures are only logged.  Returns the number of quarantined rows. -/
def quarantine_bad_data (df : DataFrame) (schemaPassed : Bool) : ℕ :=
  if schemaPassed then 0 else df.nrows

/-- The aggregator `validate_data`: runs the five checkers in order, averages their
scores, compares to `coverage_threshold` (default `0.95`), and on failure
quarantines via `_quarantine_bad_data`.  Uncaught checker exceptions
(business-rule `KeyError`s, ingestion-timestamp parse errors) propagate
out. -/
def validate_data (cfg : QualityConfig) (schemaOutcome : Except String Bool)
    (now : ℤ) (df : DataFrame) : Except String (Bool × ValidationResult) :=
  let schemaRes := validate_schema schemaOutcome
  match validate_business_rules df (cfg.rules.getD []) with
  | .error e => .error e
  | .ok businessRes =>
    let completenessRes := validate_completeness df
    let consistencyRes := validate_consistency df
    match validate_freshness now df with
    | .error e => .error e
    | .ok freshnessRes =>
      let scores := [schemaRes.score, businessRes.score, completenessRes.score,
                     consistencyRes.score, freshnessRes.score]
      let overall : ℚ := scores.sum / scores.length
      let threshold := cfg.coverage_threshold.getD ((95 : ℚ)/100)
      let passed := decide (overall ≥ threshold)
      let quarantined :=
        if passed then 0 else quarantine_bad_data df schemaRes.passed
      .ok (passed,
        { total_rows := df.nrows
          schema_validation := schemaRes
          business_rules := businessRes
          completeness := completenessRes
          consistency := consistencyRes
          freshness := freshnessRes
          overall_score := overall
          passed := passed
          quarantined_rows := quarantined })

/-!
### Concrete datasets, rules and results

Small inputs used to witness or refute the claims; each `res...` record is
the aggregate result the corresponding validation run evaluates to.
-/

/-- The empty dataset: no rows, no columns. -/
def dfEmpty : DataFrame := ⟨0, [], by intro c hc; cases hc⟩

/-- One business column `a`, one non-null numeric row. -/
def dfOne : DataFrame := ⟨1, [⟨"a", [Value.vnum 2]⟩], by decide⟩

/-- A numeric `amount` column holding one string cell. -/
def dfMixed : DataFrame :=
  ⟨2, [⟨"amount", [Value.vnum 5, Value.vstr "a"]⟩], by decide⟩

/-- An all numeric-or-null `amount` column: 5, null, -1, 3. -/
def dfNum : DataFrame :=
  ⟨4, [⟨"amount", [Value.vnum 5, Value.vnull, Value.vnum (-1), Value.vnum 3]⟩],
    by decide⟩

/-- Metadata column `_m` holding a number, business column `a`. -/
def dfMeta1 : DataFrame :=
  ⟨1, [⟨"_m", [Value.vnum 1]⟩, ⟨"a", [Value.vnum 2]⟩], by decide⟩

/-- Same as `dfMeta1` except the metadata cell is null. -/
def dfMeta2 : DataFrame :=
  ⟨1, [⟨"_m", [Value.vnull]⟩, ⟨"a", [Value.vnum 2]⟩], by decide⟩

/-- 100 rows, `amount` non-null in 95 of them. -/
def df95 : DataFrame :=
  ⟨100, [⟨"amount", List.replicate 95 (Value.vnum 1) ++
    List.replicate 5 Value.vnull⟩], by decide⟩

/-- 100 rows, `amount` non-null in 94 of them. -/
def df94 : DataFrame :=
  ⟨100, [⟨"amount", List.replicate 94 (Value.vnum 1) ++
    List.replicate 6 Value.vnull⟩], by decide⟩

/-- A `greater_than 0` rule on `amount`. -/
def ruleGt : RuleDict :=
  { name := some "r", column := some "amount", check := some "greater_than",
    value := some 0 }

/-- A `not_null` rule on `amount`. -/
def ruleNN : RuleDict :=
  { name := some "amount_not_null", column := some "amount",
    check := some "not_null" }

/-- A `not_null` rule on the metadata column `_m`. -/
def ruleMeta : RuleDict :=
  { name := some "m", column := some "_m", check := some "not_null" }

/-- A `not_null` rule on the business column `a`. -/
def ruleA : RuleDict :=
  { name := some "a_not_null", column := some "a", check := some "not_null" }

/-- Result of validating `dfEmpty` with no rules and a passing schema. -/
def resEmpty : ValidationResult :=
  { total_rows := 0
    schema_validation := { passed := true, score := 1 }
    business_rules := { passed := true, score := 1, rule_results := [] }
    completeness := { passed := true, score := 1 }
    consistency := { passed := true, score := 1 }
    freshness := { passed := true, score := 1 }
    overall_score := 1
    passed := true
    quarantined_rows := 0 }

/-- Result of validating `dfOne` with no rules and a failing schema:
overall score 4/5 misses the default 0.95 threshold and the whole dataset
is quarantined. -/
def resSchemaFail : ValidationResult :=
  { total_rows := 1
    schema_validation := { passed := false, score := 0 }
    business_rules := { passed := true, score := 1, rule_results := [] }
    completeness := { passed := true, score := 1 }
    consistency := { passed := true, score := 1 }
    freshness := { passed := true, score := 1 }
    overall_score := (4 : ℚ)/5
    passed := false
    quarantined_rows := 1 }

/-- The rule entry recorded for `df95` under `ruleNN`: exactly at the
95% boundary, passing. -/
def rr95 : RuleResult :=
  { rule := "amount_not_null", passed := true, score := some ((19 : ℚ)/20) }

/-- The rule entry recorded for `df94` under `ruleNN`: just below the
95% boundary, failing. -/
def rr94 : RuleResult :=
  { rule := "amount_not_null", passed := false, score := some ((47 : ℚ)/50) }

/-- The business-rule result for `df95` under `ruleNN`. -/
def br95 : BusinessResult :=
  { passed := true, score := (19 : ℚ)/20, rule_results := [rr95] }

/-- The business-rule result for `df94` under `ruleNN`. -/
def br94 : BusinessResult :=
  { passed := false, score := (47 : ℚ)/50, rule_results := [rr94] }

/-- The failing rule entry recorded for `dfMixed` under `ruleGt`. -/
def rrTypeError : RuleResult :=
  { rule := "r", passed := false, error := some "TypeError" }

/-- The business-rule result for `dfMixed` under `ruleGt`: the claim of a
fractional score is refuted, the rule errors out with contribution 0. -/
def brMixed : BusinessResult :=
  { passed := false, score := 0, rule_results := [rrTypeError] }

/-- Result of validating `dfMixed` against `ruleGt` with a passing schema:
the business-rule engine degrades the `TypeError` to a zero-score rule,
overall score 7/10 fails, but nothing is quarantined (schema passed);
the mixed-type column also fails the consistency type sub-check. -/
def resBusinessFail : ValidationResult :=
  { total_rows := 2
    schema_validation := { passed := true, score := 1 }
    business_rules := brMixed
    completeness := { passed := true, score := 1 }
    consistency := { passed := false, score := (1 : ℚ)/2 }
    freshness := { passed := true, score := 1 }
    overall_score := (7 : ℚ)/10
    passed := false
    quarantined_rows := 0 }

/-- Result of validating `dfOne` with a failing schema under a lowered
coverage threshold of 1/2: overall score 4/5 now passes. -/
def resLowBar : ValidationResult :=
  { total_rows := 1
    schema_validation := { passed := false, score := 0 }
    business_rules := { passed := true, score := 1, rule_results := [] }
    completeness := { passed := true, score := 1 }
    consistency := { passed := true, score := 1 }
    freshness := { passed := true, score := 1 }
    overall_score := (4 : ℚ)/5
    passed := true
    quarantined_rows := 0 }

/-!
### Score-bound lemmas

Every checker produces a score in the unit interval; these lemmas follow
the shape of the corresponding definitions.
-/

lemma natDiv_unit (a n : ℕ) (h : a ≤ n) :
    0 ≤ (a : ℚ) / n ∧ (a : ℚ) / n ≤ 1 := by
  constructor
  · positivity
  · rcases Nat.eq_zero_or_pos n with h0 | h0
    · subst h0
      simp
    · rw [div_le_one (by exact_mod_cast h0)]
      exact_mod_cast h

lemma condDiv_unit (a n : ℕ) (h : a ≤ n) :
    0 ≤ (if n > 0 then (a : ℚ) / n else 0) ∧
      (if n > 0 then (a : ℚ) / n else 0) ≤ 1 := by
  by_cases hn : n > 0
  · simpa [hn] using natDiv_unit a n h
  · simp [hn]

lemma gtCount_ok_le (vs : List Value) (v : ℚ) (pr : ℕ)
    (h : gtCount vs v = .ok pr) : pr ≤ vs.length := by
  unfold gtCount at h
  by_cases hd : numericDtype vs
  · simp only [hd, if_true, Except.ok.injEq] at h
    subst h
    exact List.countP_le_length _
  · simp [hd] at h

lemma tryScore_ok_unit (ck : String) (r : RuleDict) (vs : List Value)
    (total : ℕ) (hlen : vs.length = total) (s : ℚ)
    (h : tryScore ck r vs total = .ok s) : 0 ≤ s ∧ s ≤ 1 := by
  subst hlen
  unfold tryScore at h
  split at h
  · simp only [Except.ok.injEq] at h
    subst h
    exact condDiv_unit _ _ (List.countP_le_length _)
  · split at h
    · split at h
      · simp at h
      · rename_i v hv
        split at h
        · simp at h
        · rename_i pr hg
          simp only [Except.ok.injEq] at h
          subst h
          exact condDiv_unit _ _ (gtCount_ok_le vs v pr hg)
    · split at h
      · split at h
        · simp only [Except.ok.injEq] at h
          subst h
          exact condDiv_unit _ _ (List.countP_le_length _)
        · simp at h
      · simp only [Except.ok.injEq] at h
        subst h
        norm_num

lemma getCol_length (df : DataFrame) (nm : String) (vs : List Value)
    (h : getCol df nm = some vs) : vs.length = df.nrows := by
  unfold getCol at h
  cases hf : df.columns.find? (fun c => c.name == nm) with
  | none => rw [hf] at h; simp at h
  | some c =>
    rw [hf] at h
    simp only [Option.map_some', Option.some.injEq] at h
    subst h
    exact df.wf c (List.mem_of_find?_eq_some hf)

lemma evalRule_ok_unit (df : DataFrame) (r : RuleDict) (rr : RuleResult)
    (s : ℚ) (h : evalRule df r = .ok (rr, s)) : 0 ≤ s ∧ s ≤ 1 := by
  unfold evalRule at h
  split at h
  · simp at h
  · split at h
    · simp at h
    · split at h
      · simp at h
      · rename_i nm hn col hc ck hk
        split at h
        · simp only [Except.ok.injEq, Prod.mk.injEq] at h
          rw [← h.2]
          norm_num
        · rename_i vs hg
          have hlen := getCol_length df _ vs hg
          simp only [Except.ok.injEq] at h
          unfold tryEvalRule at h
          split at h
          · rename_i s0 ht
            simp only [Prod.mk.injEq] at h
            rw [← h.2]
            exact tryScore_ok_unit ck r vs df.nrows hlen s0 ht
          · simp only [Prod.mk.injEq] at h
            rw [← h.2]
            norm_num

lemma brLoop_ok_bounds (df : DataFrame) (rules : List RuleDict)
    (rs : List RuleResult) (ts : ℚ)
    (h : brLoop df rules = .ok (rs, ts)) :
    0 ≤ ts ∧ ts ≤ (rules.length : ℚ) := by
  induction rules generalizing rs ts with
  | nil =>
    unfold brLoop at h
    simp only [Except.ok.injEq, Prod.mk.injEq] at h
    rw [← h.2]
    norm_num
  | cons r rest ih =>
    unfold brLoop at h
    cases he : evalRule df r with
    | error e => rw [he] at h; simp at h
    | ok p =>
      obtain ⟨rr, s⟩ := p
      rw [he] at h
      cases hb : brLoop df rest with
      | error e => rw [hb] at h; simp at h
      | ok q =>
        obtain ⟨rs2, ts2⟩ := q
        rw [hb] at h
        simp only [Except.ok.injEq, Prod.mk.injEq] at h
        have hu := evalRule_ok_unit df r rr s he
        have hi := ih rs2 ts2 hb
        rw [← h.2]
        simp only [List.length_cons]
        push_cast
        constructor
        · linarith [hu.1, hi.1]
        · linarith [hu.2, hi.2]

lemma validate_business_rules_ok_unit (df : DataFrame)
    (rules : List RuleDict) (b : BusinessResult)
    (h : validate_business_rules df rules = .ok b) :
    0 ≤ b.score ∧ b.score ≤ 1 := by
  unfold validate_business_rules at h
  cases hb : brLoop df rules with
  | error e => rw [hb] at h; simp at h
  | ok p =>
    obtain ⟨rs, ts⟩ := p
    rw [hb] at h
    simp only [Except.ok.injEq] at h
    rw [← h]
    by_cases hr : rules.isEmpty
    · simp [hr]
    · have hne : rules ≠ [] := by simpa [List.isEmpty_iff] using hr
      have hlen : 0 < rules.length := List.length_pos.mpr hne
      have hts := brLoop_ok_bounds df rules rs ts hb
      have hrf : rules.isEmpty = false := by
        simpa using hr
      simp only [hrf, Bool.false_eq_true, if_false]
      constructor
      · exact div_nonneg hts.1 (by positivity)
      · rw [div_le_one (by exact_mod_cast hlen)]
        exact hts.2

lemma completenessRatio_unit (df : DataFrame) (c : Column)
    (h : c ∈ df.columns) :
    0 ≤ completenessRatio df.nrows c.values ∧
      completenessRatio df.nrows c.values ≤ 1 := by
  have hl : notNullCount c.values ≤ df.nrows := by
    rw [← df.wf c h]
    exact List.countP_le_length _
  simpa [completenessRatio] using condDiv_unit (notNullCount c.values) df.nrows hl

lemma listSum_unit (l : List ℚ) (h : ∀ x ∈ l, 0 ≤ x ∧ x ≤ 1) :
    0 ≤ l.sum ∧ l.sum ≤ (l.length : ℚ) := by
  induction l with
  | nil => simp
  | cons a t ih =>
    have ha := h a (List.mem_cons_self a t)
    have ht := ih (fun x hx => h x (List.mem_cons_of_mem a hx))
    simp only [List.sum_cons, List.length_cons]
    push_cast
    constructor
    · linarith [ha.1, ht.1]
    · linarith [ha.2, ht.2]

lemma mean_unit (l : List ℚ) (h : ∀ x ∈ l, 0 ≤ x ∧ x ≤ 1) :
    0 ≤ l.sum / l.length ∧ l.sum / l.length ≤ 1 := by
  rcases eq_or_ne l [] with hl | hl
  · subst hl
    simp
  · have hlen : 0 < l.length := List.length_pos.mpr hl
    have hs := listSum_unit l h
    constructor
    · exact div_nonneg hs.1 (by positivity)
    · rw [div_le_one (by exact_mod_cast hlen)]
      exact hs.2

lemma validate_completeness_unit (df : DataFrame) :
    0 ≤ (validate_completeness df).score ∧
      (validate_completeness df).score ≤ 1 := by
  unfold validate_completeness
  by_cases hb : (businessCols df).isEmpty
  · simp [hb]
  · simp only [hb, if_false]
    have h : ∀ x ∈ (businessCols df).map
        (fun c => completenessRatio df.nrows c.values), 0 ≤ x ∧ x ≤ 1 := by
      intro x hx
      simp only [List.mem_map] at hx
      obtain ⟨c, hc, rfl⟩ := hx
      exact completenessRatio_unit df c (List.mem_of_mem_filter hc)
    have := mean_unit _ h
    simpa [List.length_map] using this

lemma halfSum_unit (a b : Bool) :
    0 ≤ ((((if a then 1 else 0) + (if b then 1 else 0) : ℕ)) : ℚ) / 2 ∧
      ((((if a then 1 else 0) + (if b then 1 else 0) : ℕ)) : ℚ) / 2 ≤ 1 := by
  cases a <;> cases b <;> norm_num

lemma validate_consistency_unit (df : DataFrame) :
    0 ≤ (validate_consistency df).score ∧
      (validate_consistency df).score ≤ 1 := by
  unfold validate_consistency
  exact halfSum_unit _ _

lemma validate_freshness_ok_unit (now : ℤ) (df : DataFrame)
    (cr : CheckResult) (h : validate_freshness now df = .ok cr) :
    0 ≤ cr.score ∧ cr.score ≤ 1 := by
  unfold validate_freshness at h
  split at h
  · simp at h
  · split at h
    · simp only at h
      split at h
      · simp only [Except.ok.injEq] at h
        rw [← h]
        norm_num
      · simp only [Except.ok.injEq] at h
        rw [← h]
        exact natDiv_unit _ _ (List.countP_le_length _)
    · simp only at h
      split at h
      · simp only [Except.ok.injEq] at h
        rw [← h]
        norm_num
      · simp only [Except.ok.injEq] at h
        rw [← h]
        exact natDiv_unit _ _ (List.countP_le_length _)

lemma validate_schema_unit (so : Except String Bool) :
    0 ≤ (validate_schema so).score ∧ (validate_schema so).score ≤ 1 := by
  unfold validate_schema
  cases so with
  | ok b => cases b <;> norm_num
  | error e => norm_num

deriving instance DecidableEq for Except

lemma listSum_all_one (l : List ℚ) (h : ∀ x ∈ l, x = 1) :
    l.sum = (l.length : ℚ) := by
  induction l with
  | nil => simp
  | cons a t ih =>
    have ha := h a (List.mem_cons_self a t)
    have ht := ih (fun x hx => h x (List.mem_cons_of_mem a hx))
    simp only [List.sum_cons, List.length_cons, ha, ht]
    push_cast
    ring

/-- Searching a non-metadata column name in the filtered business columns
finds the same column as searching all columns. -/
lemma find_name_filter (l : List Column) (nm : String)
    (hnm : nm.startsWith "_" = false) :
    (l.filter (fun c => !(c.name.startsWith "_"))).find?
      (fun c => c.name == nm) = l.find? (fun c => c.name == nm) := by
  induction l with
  | nil => rfl
  | cons c tl ih =>
    by_cases hc : c.name == nm
    · have hcn : c.name = nm := by simpa using hc
      have hns : (c.name.startsWith "_") = false := hcn ▸ hnm
      simp [List.filter_cons, hns, List.find?_cons, hc]
    · by_cases hs : c.name.startsWith "_"
      · simp [List.filter_cons, hs, List.find?_cons, hc, ih]
      · simp [List.filter_cons, hs, List.find?_cons, hc, ih]

lemma getCol_business_eq (dfA dfB : DataFrame) (nm : String)
    (hb : businessCols dfA = businessCols dfB)
    (hnm : nm.startsWith "_" = false) :
    getCol dfA nm = getCol dfB nm := by
  unfold getCol
  rw [← find_name_filter dfA.columns nm hnm, ← find_name_filter dfB.columns nm hnm]
  unfold businessCols at hb
  rw [hb]

lemma evalRule_business_eq (dfA dfB : DataFrame) (r : RuleDict)
    (hb : businessCols dfA = businessCols dfB)
    (hn : dfA.nrows = dfB.nrows)
    (hr : r.column.all (fun c => !(c.startsWith "_")) = true) :
    evalRule dfA r = evalRule dfB r := by
  unfold evalRule
  cases hname : r.name with
  | none => rfl
  | some nm =>
    cases hcol : r.column with
    | none => rfl
    | some col =>
      have hcs : col.startsWith "_" = false := by
        rw [hcol] at hr
        simpa using hr
      have hg := getCol_business_eq dfA dfB col hb hcs
      simp only [hg, hn]

lemma brLoop_business_eq (dfA dfB : DataFrame) (rules : List RuleDict)
    (hb : businessCols dfA = businessCols dfB)
    (hn : dfA.nrows = dfB.nrows)
    (hr : ∀ r ∈ rules, r.column.all (fun c => !(c.startsWith "_")) = true) :
    brLoop dfA rules = brLoop dfB rules := by
  induction rules with
  | nil => rfl
  | cons r rest ih =>
    unfold brLoop
    simp only [evalRule_business_eq dfA dfB r hb hn
        (hr r (List.mem_cons_self r rest)),
      ih (fun x hx => hr x (List.mem_cons_of_mem r hx))]

/-- Specialisation of `tryScore` to `greater_than` with a present
`value` key. -/
lemma tryScore_gt (r : RuleDict) (vs : List Value) (total : ℕ) (v : ℚ)
    (hv : r.value = some v) :
    tryScore "greater_than" r vs total =
      (match gtCount vs v with
       | .error e => .error e
       | .ok pr => .ok (if total > 0 then (pr : ℚ) / total else 0)) := by
  unfold tryScore
  rw [if_neg (by decide), if_pos rfl, hv]

/-- A successful `validate_data` run determines every field of the
returned record from the five checker outputs, the threshold and the
quarantine policy. -/
lemma validate_data_ok_fields (cfg : QualityConfig)
    (so : Except String Bool) (now : ℤ) (df : DataFrame) (p : Bool)
    (res : ValidationResult)
    (h : validate_data cfg so now df = .ok (p, res)) :
    res.schema_validation = validate_schema so ∧
    validate_business_rules df (cfg.rules.getD []) = .ok res.business_rules ∧
    res.completeness = validate_completeness df ∧
    res.consistency = validate_consistency df ∧
    validate_freshness now df = .ok res.freshness ∧
    res.total_rows = df.nrows ∧
    res.overall_score =
      (res.schema_validation.score + res.business_rules.score +
        res.completeness.score + res.consistency.score +
        res.freshness.score) / 5 ∧
    res.passed =
      decide (res.overall_score ≥ cfg.coverage_threshold.getD ((95 : ℚ)/100)) ∧
    p = res.passed ∧
    res.quarantined_rows =
      (if res.passed then 0
       else if res.schema_validation.passed then 0 else df.nrows) := by
  unfold validate_data at h
  split at h
  · simp at h
  · rename_i bres hb
    split at h
    · simp at h
    · rename_i fres hf
      simp only [Except.ok.injEq, Prod.mk.injEq] at h
      obtain ⟨hp, hres⟩ := h
      subst hres
      subst hp
      refine ⟨rfl, by rw [hb], rfl, rfl, by rw [hf], rfl, ?_, ?_, rfl, ?_⟩
      · show ([(validate_schema so).score, bres.score,
          (validate_completeness df).score, (validate_consistency df).score,
          fres.score].sum) / (5 : ℕ) = _
        simp [List.sum_cons]
        ring
      · rfl
      · show (if decide _ = true then 0 else quarantine_bad_data df _) = _
        unfold quarantine_bad_data
        rfl

/-!
### The claims
-/

/-- C1: for every dataset, a completed validation reports an
`overall_score` equal to the arithmetic mean, with equal weighting, of
the five check scores (schema, business rules, completeness, consistency,
freshness), and that score lies in the unit interval. -/
theorem claim1_overall_score_mean_and_unit
    (cfg : QualityConfig) (so : Except String Bool) (now : ℤ)
    (df : DataFrame) (p : Bool) (res : ValidationResult)
    (h : validate_data cfg so now df = .ok (p, res)) :
    res.overall_score =
      (res.schema_validation.score + res.business_rules.score +
        res.completeness.score + res.consistency.score +
        res.freshness.score) / 5 ∧
    0 ≤ res.overall_score ∧ res.overall_score ≤ 1 := by
  obtain ⟨hs, hb, hc, hcons, hf, htot, hmean, hpass, hp, hq⟩ :=
    validate_data_ok_fields cfg so now df p res h
  have u1 := validate_schema_unit so
  have u2 := validate_business_rules_ok_unit df _ res.business_rules hb
  have u3 := validate_completeness_unit df
  have u4 := validate_consistency_unit df
  have u5 := validate_freshness_ok_unit now df res.freshness hf
  rw [← hs] at u1
  rw [← hc] at u3
  rw [← hcons] at u4
  refine ⟨hmean, ?_, ?_⟩
  · rw [hmean]
    apply div_nonneg
    · linarith [u1.1, u2.1, u3.1, u4.1, u5.1]
    · norm_num
  · rw [hmean]
    rw [div_le_one (by norm_num : (0 : ℚ) < 5)]
    linarith [u1.2, u2.2, u3.2, u4.2, u5.2]

/-- Witness for C1 at the empty dataset with a passing schema and no
rules: every score is 1 and the mean is 1. -/
theorem claim1_witness :
    validate_data {} (Except.ok true) 0 dfEmpty = Except.ok (true, resEmpty) ∧
    (resEmpty.overall_score =
      (resEmpty.schema_validation.score + resEmpty.business_rules.score +
        resEmpty.completeness.score + resEmpty.consistency.score +
        resEmpty.freshness.score) / 5 ∧
      0 ≤ resEmpty.overall_score ∧ resEmpty.overall_score ≤ 1) :=
  ⟨by with_unfolding_all decide,
    claim1_overall_score_mean_and_unit {} (Except.ok true) 0 dfEmpty true
      resEmpty (by with_unfolding_all decide)⟩

/-- C2: whenever a validation run fails overall, the whole dataset is
quarantined exactly when the schema check failed; when the schema check
passed (for example, when only business rules failed), no rows are
quarantined even though `passed = false`. -/
theorem claim2_quarantine_only_on_schema_failure
    (cfg : QualityConfig) (so : Except String Bool) (now : ℤ)
    (df : DataFrame) (p : Bool) (res : ValidationResult)
    (h : validate_data cfg so now df = .ok (p, res))
    (hfail : res.passed = false) :
    res.quarantined_rows =
      (if res.schema_validation.passed then 0 else res.total_rows) := by
  obtain ⟨hs, hb, hc, hcons, hf, htot, hmean, hpass, hp, hq⟩ :=
    validate_data_ok_fields cfg so now df p res h
  rw [hq, hfail, htot]
  simp

/-- Witness for C2, on both sides of the policy: a schema failure
quarantines the entire one-row dataset, while a pure business-rule
failure quarantines nothing despite the failed run. -/
theorem claim2_witness :
    (validate_data {} (Except.ok false) 0 dfOne =
        Except.ok (false, resSchemaFail) ∧
      resSchemaFail.passed = false ∧
      resSchemaFail.quarantined_rows =
        (if resSchemaFail.schema_validation.passed then 0
         else resSchemaFail.total_rows)) ∧
    (validate_data { rules := some [ruleGt] } (Except.ok true) 0 dfMixed =
        Except.ok (false, resBusinessFail) ∧
      resBusinessFail.quarantined_rows = 0 ∧
      resBusinessFail.quarantined_rows =
        (if resBusinessFail.schema_validation.passed then 0
         else resBusinessFail.total_rows)) :=
  ⟨⟨by with_unfolding_all decide, rfl,
      claim2_quarantine_only_on_schema_failure {} (Except.ok false) 0 dfOne
        false resSchemaFail (by with_unfolding_all decide) rfl⟩,
    ⟨by with_unfolding_all decide, rfl,
      claim2_quarantine_only_on_schema_failure { rules := some [ruleGt] }
        (Except.ok true) 0 dfMixed false resBusinessFail
        (by with_unfolding_all decide) rfl⟩⟩

/-- C3 (code bug): a rule dict missing a required key is NOT downgraded
to a failing CheckResult — `rule["name"]` is read outside the `try`
block, so the `KeyError` escapes the business-rule checker and aborts
`validate_data` itself. -/
theorem claim3_malformed_rule_raises :
    validate_business_rules dfOne [{}] = Except.error "KeyError: name" ∧
    validate_data { rules := some [{}] } (Except.ok true) 0 dfOne =
      Except.error "KeyError: name" :=
  ⟨by with_unfolding_all decide, by with_unfolding_all decide⟩

/-- Counterexample to C4 as stated: two datasets identical except for the
values held in the metadata column `_m` (same row count, same column
names, identical business columns) give different business-rule results
when a configured rule targets `_m`: the engine does not exclude
metadata columns. -/
theorem claim4_counterexample :
    businessCols dfMeta1 = businessCols dfMeta2 ∧
    dfMeta1.nrows = dfMeta2.nrows ∧
    dfMeta1.columns.map Column.name = dfMeta2.columns.map Column.name ∧
    validate_business_rules dfMeta1 [ruleMeta] ≠
      validate_business_rules dfMeta2 [ruleMeta] := by
  with_unfolding_all decide

/-- C4 (amended): the completeness and consistency checks never depend on
metadata-column values — any two datasets with the same row count and
the same business columns get identical results — and the business-rule
check likewise, provided no configured rule names an
underscore-prefixed column. -/
theorem claim4_metadata_exclusion_amended (dfA dfB : DataFrame)
    (rules : List RuleDict)
    (hb : businessCols dfA = businessCols dfB)
    (hn : dfA.nrows = dfB.nrows)
    (hr : ∀ r ∈ rules, r.column.all (fun c => !(c.startsWith "_")) = true) :
    validate_completeness dfA = validate_completeness dfB ∧
    validate_consistency dfA = validate_consistency dfB ∧
    validate_business_rules dfA rules = validate_business_rules dfB rules := by
  refine ⟨?_, ?_, ?_⟩
  · simp only [validate_completeness, hb, hn]
  · simp only [validate_consistency, duplicateCount, typeConsistent, hb, hn]
  · unfold validate_business_rules
    rw [brLoop_business_eq dfA dfB rules hb hn hr]

/-- Witness for the amended C4: the two metadata-divergent datasets are
indistinguishable to all three checkers once the rule targets the
business column `a`. -/
theorem claim4_amended_witness :
    validate_completeness dfMeta1 = validate_completeness dfMeta2 ∧
    validate_consistency dfMeta1 = validate_consistency dfMeta2 ∧
    validate_business_rules dfMeta1 [ruleA] =
      validate_business_rules dfMeta2 [ruleA] :=
  claim4_metadata_exclusion_amended dfMeta1 dfMeta2 [ruleA]
    (by with_unfolding_all decide) (by with_unfolding_all decide)
    (by with_unfolding_all decide)

/-- Counterexample to C5 as stated: on a two-row `amount` column holding
5 and the string `a`, a `greater_than 0` rule does not score 1/2 (the
fraction of rows strictly above 0 with the string counting as failing);
the mixed-type comparison raises, the engine catches it and records an
errored rule with no score and contribution 0. -/
theorem claim5_counterexample :
    validate_business_rules dfMixed [ruleGt] = Except.ok brMixed ∧
    brMixed.rule_results.map RuleResult.score ≠ [some ((1 : ℚ)/2)] ∧
    brMixed.score ≠ (1 : ℚ)/2 := by
  with_unfolding_all decide

/-- C5 (amended): for a `greater_than` rule over an existing column, if
every cell is numeric or null the rule scores the fraction of rows
strictly above `rule.value` (null rows fail the predicate); if any
non-null non-numeric cell is present, the comparison raises `TypeError`,
which is caught and recorded as an errored rule contributing 0.0 — no
exception escapes the checker in either case. -/
theorem claim5_greater_than_amended (df : DataFrame) (r : RuleDict)
    (nm col : String) (v : ℚ) (vs : List Value)
    (hnm : r.name = some nm) (hcol : r.column = some col)
    (hck : r.check = some "greater_than") (hv : r.value = some v)
    (hg : getCol df col = some vs) :
    (numericDtype vs = true →
      evalRule df r = Except.ok
        ({ rule := nm,
           passed := decide ((if df.nrows > 0
             then (vs.countP (gtPredicate v) : ℚ) / df.nrows else 0) ≥
             (95 : ℚ)/100),
           score := some (if df.nrows > 0
             then (vs.countP (gtPredicate v) : ℚ) / df.nrows else 0) },
         if df.nrows > 0
           then (vs.countP (gtPredicate v) : ℚ) / df.nrows else 0)) ∧
    (numericDtype vs = false →
      evalRule df r = Except.ok
        ({ rule := nm, passed := false, error := some "TypeError" }, 0)) := by
  have he : evalRule df r =
      Except.ok (tryEvalRule nm "greater_than" r vs df.nrows) := by
    unfold evalRule
    simp only [hnm, hcol, hck, hg]
  constructor <;> intro hd
  · rw [he]
    unfold tryEvalRule
    rw [tryScore_gt r vs df.nrows v hv]
    unfold gtCount
    rw [if_pos hd]
  · rw [he]
    unfold tryEvalRule
    rw [tryScore_gt r vs df.nrows v hv]
    unfold gtCount
    rw [if_neg (by simp [hd])]

/-- Witness for the amended C5 at the all-numeric-or-null column
5, null, -1, 3 against `greater_than 0`: two of four rows pass, the null
row fails the predicate, score 1/2 and the rule fails its 95% bar. -/
theorem claim5_amended_witness :
    evalRule dfNum ruleGt = Except.ok
      ({ rule := "r", passed := false, score := some ((1 : ℚ)/2) },
        (1 : ℚ)/2) := by
  have h := (claim5_greater_than_amended dfNum ruleGt "r" "amount" 0
    [Value.vnum 5, Value.vnull, Value.vnum (-1), Value.vnum 3]
    rfl rfl rfl rfl (by with_unfolding_all decide)).1
    (by with_unfolding_all decide)
  rw [h]
  with_unfolding_all decide

/-- C6: a completed validation passes exactly when the overall score
reaches the configured coverage threshold (default 0.95), and the
returned flag agrees with the recorded one. -/
theorem claim6_passed_iff_threshold
    (cfg : QualityConfig) (so : Except String Bool) (now : ℤ)
    (df : DataFrame) (p : Bool) (res : ValidationResult)
    (h : validate_data cfg so now df = .ok (p, res)) :
    p = res.passed ∧
    (res.passed = true ↔
      res.overall_score ≥ cfg.coverage_threshold.getD ((95 : ℚ)/100)) := by
  obtain ⟨hs, hb, hc, hcons, hf, htot, hmean, hpass, hp, hq⟩ :=
    validate_data_ok_fields cfg so now df p res h
  refine ⟨hp, ?_⟩
  rw [hpass]
  exact decide_eq_true_iff

/-- Witness for C6 with an explicit threshold of 1/2: the schema-failing
run scores 4/5 and now passes. -/
theorem claim6_witness :
    validate_data { coverage_threshold := some ((1 : ℚ)/2) }
      (Except.ok false) 0 dfOne = Except.ok (true, resLowBar) ∧
    (true = resLowBar.passed ∧
      (resLowBar.passed = true ↔
        resLowBar.overall_score ≥
          (({ coverage_threshold := some ((1 : ℚ)/2) } :
            QualityConfig)).coverage_threshold.getD ((95 : ℚ)/100))) :=
  ⟨by with_unfolding_all decide,
    claim6_passed_iff_threshold { coverage_threshold := some ((1 : ℚ)/2) }
      (Except.ok false) 0 dfOne true resLowBar
      (by with_unfolding_all decide)⟩

/-- C7: with an empty rule list the business-rule engine vacuously
passes with score exactly 1.0, on every dataset. -/
theorem claim7_empty_rules_vacuously_pass (df : DataFrame) :
    validate_business_rules df [] =
      Except.ok { passed := true, score := 1, rule_results := [] } := by
  with_unfolding_all rfl

set_option maxRecDepth 8000 in
/-- C8: an individual rule that evaluates to a score passes exactly when
that score is at least 0.95, equality passing; at 95/100 the recorded
rule passes with score exactly 0.95, at 94/100 it fails. -/
theorem claim8_per_rule_threshold :
    (∀ (df : DataFrame) (r : RuleDict) (rr : RuleResult) (s q : ℚ),
      evalRule df r = Except.ok (rr, s) → rr.score = some q →
      rr.passed = decide (q ≥ (95 : ℚ)/100)) ∧
    validate_business_rules df95 [ruleNN] = Except.ok br95 ∧
    validate_business_rules df94 [ruleNN] = Except.ok br94 := by
  refine ⟨?_, by with_unfolding_all decide, by with_unfolding_all decide⟩
  intro df r rr s q h hscore
  unfold evalRule at h
  split at h
  · simp at h
  · split at h
    · simp at h
    · split at h
      · simp at h
      · split at h
        · simp only [Except.ok.injEq, Prod.mk.injEq] at h
          rw [← h.1] at hscore
          simp at hscore
        · simp only [Except.ok.injEq] at h
          unfold tryEvalRule at h
          split at h
          · rename_i s0 ht
            simp only [Prod.mk.injEq] at h
            rw [← h.1] at hscore
            simp only [Option.some.injEq] at hscore
            rw [← h.1]
            simp [hscore]
          · simp only [Prod.mk.injEq] at h
            rw [← h.1] at hscore
            simp at hscore

set_option maxRecDepth 8000 in
/-- Witness for C8 at the 95/100 boundary: the recorded rule passes and
its flag is exactly the 0.95 comparison. -/
theorem claim8_witness :
    rr95.passed = decide (((19 : ℚ)/20) ≥ (95 : ℚ)/100) :=
  claim8_per_rule_threshold.1 df95 ruleNN rr95 ((19 : ℚ)/20) ((19 : ℚ)/20)
    (by with_unfolding_all decide) rfl

/-- C9: the completeness score is the mean over business columns of the
per-column non-null ratios, the check passes exactly at 0.90 or above,
and a dataset whose business columns all have ratio 1 (100% non-null)
scores exactly 1.0. -/
theorem claim9_completeness_mean (df : DataFrame) :
    (businessCols df ≠ [] →
      (validate_completeness df).score =
        ((businessCols df).map
          (fun c => completenessRatio df.nrows c.values)).sum /
          ((businessCols df).length : ℚ)) ∧
    ((validate_completeness df).passed = true ↔
      (validate_completeness df).score ≥ (9 : ℚ)/10) ∧
    ((∀ c ∈ businessCols df, completenessRatio df.nrows c.values = 1) →
      (validate_completeness df).score = 1) := by
  refine ⟨?_, ?_, ?_⟩
  · intro hne
    have he : (businessCols df).isEmpty = false := by
      simpa [List.isEmpty_iff] using hne
    simp [validate_completeness, he]
  · simp only [validate_completeness]
    exact decide_eq_true_iff
  · intro hall
    by_cases hb : (businessCols df).isEmpty
    · simp [validate_completeness, hb]
    · have hne : businessCols df ≠ [] := by
        simpa [List.isEmpty_iff] using hb
      have hlen : 0 < (businessCols df).length := List.length_pos.mpr hne
      have hsum : ((businessCols df).map
          (fun c => completenessRatio df.nrows c.values)).sum =
          (((businessCols df).map
            (fun c => completenessRatio df.nrows c.values)).length : ℚ) := by
        apply listSum_all_one
        intro x hx
        simp only [List.mem_map] at hx
        obtain ⟨c, hc, rfl⟩ := hx
        exact hall c hc
      have hbf : (businessCols df).isEmpty = false := by
        simpa [List.isEmpty_iff] using hb
      simp only [validate_completeness, hbf, Bool.false_eq_true, if_false]
      rw [hsum]
      simp only [List.length_map]
      rw [div_self]
      exact_mod_cast hlen.ne'

/-- Witness for C9 at a fully non-null one-column dataset. -/
theorem claim9_witness : (validate_completeness dfOne).score = 1 :=
  (claim9_completeness_mean dfOne).2.2 (by with_unfolding_all decide)

/-- C10: the reported quarantine count of a completed validation is
all-or-nothing — either zero or the full row count, never a strict
subset. -/
theorem claim10_quarantine_all_or_nothing
    (cfg : QualityConfig) (so : Except String Bool) (now : ℤ)
    (df : DataFrame) (p : Bool) (res : ValidationResult)
    (h : validate_data cfg so now df = .ok (p, res)) :
    res.quarantined_rows = 0 ∨ res.quarantined_rows = res.total_rows := by
  obtain ⟨hs, hb, hc, hcons, hf, htot, hmean, hpass, hp, hq⟩ :=
    validate_data_ok_fields cfg so now df p res h
  rw [hq, htot]
  by_cases h1 : res.passed = true
  · simp [h1]
  · by_cases h2 : res.schema_validation.passed = true
    · simp [h1, h2]
    · simp [h1, h2]

/-- Witness for C10 at the schema-failing one-row run, where the whole
dataset is quarantined. -/
theorem claim10_witness :
    resSchemaFail.quarantined_rows = 0 ∨
      resSchemaFail.quarantined_rows = resSchemaFail.total_rows :=
  claim10_quarantine_all_or_nothing {} (Except.ok false) 0 dfOne false
    resSchemaFail (by with_unfolding_all decide)

end CoventryDW
